import Mathlib

/-!
Verification of the Spock EMS SMA integration core.

Shallow embedding of the register codec (`compat_payload.py`), the sentinel
normalizers and address resolver (`__init__.py`), the Modbus battery writer
(`sma_writer.py`), the command applier and telemetry mapper
(`coordinator.py`), and the polling cycles.  Machine integers are modelled as
`Int` with explicit `% 2^w` where the Python code masks; fallible code
returns `Except` or `Option`.
-/

namespace SpockEmsSma

/-- The `Endian` enumeration of `compat_pymodbus.py`: `Auto = "@"`,
`Big = ">"`, `Little = "<"`. -/
inductive Endian where
  | Auto
  | Big
  | Little
deriving DecidableEq, Repr

/-- Big-endian byte recomposition, as `struct.unpack` with prefix `">"`
does on a byte string. -/
def bytesBE (bs : List Int) : Int :=
  bs.foldl (fun acc b => acc * 256 + b) 0

/-- Embeds `struct.unpack(prefix + "H"/"I", data)` for the format prefix produced by
`_fmt_prefix` in `compat_payload.py`: `Big ↦ ">"`, `Little ↦ "<"`, and the
`Auto`/native fallthrough also yields `">"`. -/
def unpackUInt (byteorder : Endian) (bs : List Int) : Int :=
  match byteorder with
  | Endian.Little => bytesBE bs.reverse
  | _ => bytesBE bs

/-- Two's-complement reading of a `bits`-wide unsigned pattern, as
`struct.unpack` with formats `"h"`/`"i"` performs on the same bytes. -/
def toSigned (bits : Nat) (u : Int) : Int :=
  if 2 ^ (bits - 1) ≤ u then u - 2 ^ bits else u

/-- One 16-bit register to its two bytes, from
`BinaryPayloadDecoder.fromRegisters`: `reg &= 0xFFFF`, then big byte order
emits `[(reg >> 8) & 0xFF, reg & 0xFF]`, otherwise the swapped pair. -/
def regToBytes (byteorder : Endian) (reg : Int) : List Int :=
  let r := reg % 65536
  if byteorder = Endian.Big then [(r / 256) % 256, r % 256]
  else [r % 256, (r / 256) % 256]

/-- The decoder state of `compat_payload.BinaryPayloadDecoder`. -/
structure BinaryPayloadDecoder where
  buf : List Int
  pos : Nat
  byteorder : Endian
  wordorder : Endian
deriving DecidableEq, Repr

/-- Embeds `BinaryPayloadDecoder.fromRegisters`. -/
def BinaryPayloadDecoder.fromRegisters (registers : List Int)
    (byteorder wordorder : Endian) : BinaryPayloadDecoder :=
  ⟨(registers.map (regToBytes byteorder)).flatten, 0, byteorder, wordorder⟩

/-- Embeds `BinaryPayloadDecoder._take`: slice `n` bytes at the cursor; a short
slice raises `IndexError("Decoder buffer underflow")`. -/
def BinaryPayloadDecoder.take (d : BinaryPayloadDecoder) (n : Nat) :
    Except String (List Int × BinaryPayloadDecoder) :=
  let chunk := (d.buf.drop d.pos).take n
  if chunk.length = n then Except.ok (chunk, { d with pos := d.pos + n })
  else Except.error "Decoder buffer underflow"

/-- The 2-byte word chunks of a byte list, as
`[data[i:i+2] for i in range(0, len(data), 2)]` builds them. -/
def toWords : List Int → List (List Int)
  | [] => []
  | [a] => [[a]]
  | a :: b :: rest => [a, b] :: toWords rest

/-- Embeds `BinaryPayloadDecoder._reorder_words`: reverse the 16-bit words when the
word order is little and the byte count is even. -/
def BinaryPayloadDecoder.reorderWords (d : BinaryPayloadDecoder)
    (data : List Int) : List Int :=
  if d.wordorder = Endian.Little ∧ data.length % 2 = 0 then
    ((toWords data).reverse).flatten
  else data

/-- Embeds `decode_16bit_uint`. -/
def BinaryPayloadDecoder.decode_16bit_uint (d : BinaryPayloadDecoder) :
    Except String (Int × BinaryPayloadDecoder) := do
  let (data, d2) ← d.take 2
  pure (unpackUInt d.byteorder data, d2)

/-- Embeds `decode_16bit_int`. -/
def BinaryPayloadDecoder.decode_16bit_int (d : BinaryPayloadDecoder) :
    Except String (Int × BinaryPayloadDecoder) := do
  let (data, d2) ← d.take 2
  pure (toSigned 16 (unpackUInt d.byteorder data), d2)

/-- Embeds `decode_32bit_uint`. -/
def BinaryPayloadDecoder.decode_32bit_uint (d : BinaryPayloadDecoder) :
    Except String (Int × BinaryPayloadDecoder) := do
  let (data, d2) ← d.take 4
  pure (unpackUInt d.byteorder (d.reorderWords data), d2)

/-- Embeds `decode_32bit_int`. -/
def BinaryPayloadDecoder.decode_32bit_int (d : BinaryPayloadDecoder) :
    Except String (Int × BinaryPayloadDecoder) := do
  let (data, d2) ← d.take 4
  pure (toSigned 32 (unpackUInt d.byteorder (d.reorderWords data)), d2)

/-- Embedded `decode_32bit_float` consumes four bytes through `_take` and reorders
words exactly like the 32-bit integer decoders; the IEEE-754 reading of the
resulting bytes is outside this integer model, so the reordered bytes are
returned raw. -/
def BinaryPayloadDecoder.decode_32bit_float (d : BinaryPayloadDecoder) :
    Except String (List Int × BinaryPayloadDecoder) := do
  let (data, d2) ← d.take 4
  pure (d.reorderWords data, d2)

/-- Embeds `skip_bytes`: advance the cursor, clamped to the buffer length. -/
def BinaryPayloadDecoder.skip_bytes (d : BinaryPayloadDecoder) (n : Nat) :
    BinaryPayloadDecoder :=
  { d with pos := min d.buf.length (d.pos + n) }

/-! Sentinel normalizers from `__init__.py`. -/

/-- The set `INVALID_16`, holding 0xFFFF. -/
def INVALID_16 : List Int := [65535]

/-- The set `INVALID_32U`, holding 0xFFFFFFFF and 0x80000000. -/
def INVALID_32U : List Int := [4294967295, 2147483648]

/-- The set `INVALID_32S`, holding -1 and -2147483648. -/
def INVALID_32S : List Int := [-1, -2147483648]

/-- Embeds `_norm_u16`. -/
def norm_u16 (v : Int) : Option Int :=
  if v ∈ INVALID_16 then none else some v

/-- Embeds `_norm_u32`. -/
def norm_u32 (v : Int) : Option Int :=
  if v ∈ INVALID_32U then none else some v

/-- Embeds `_norm_s32`. -/
def norm_s32 (v : Int) : Option Int :=
  if v ∈ INVALID_32S then none else some v

/-! The Modbus battery writer, `sma_writer.py`. -/

/-- The constant `REGISTER_POWER_SETPOINT = 40149`. -/
def REGISTER_POWER_SETPOINT : Int := 40149

/-- The constant `REGISTER_CONTROL_MODE = 40151`. -/
def REGISTER_CONTROL_MODE : Int := 40151

/-- The constant `MANUAL_MODE_VALUE = 802`. -/
def MANUAL_MODE_VALUE : Int := 802

/-- The constant `AUTO_MODE_VALUE = 803`. -/
def AUTO_MODE_VALUE : Int := 803

/-- Embeds `SMABatteryWriter._split_u32`: mask to 32 bits, then split into the high
and low 16-bit registers. -/
def split_u32 (val : Int) : Int × Int :=
  let v := val % 4294967296
  ((v / 65536) % 65536, v % 65536)

/-- Embeds `SMABatteryWriter._split_s32`: map a negative value to its unsigned
32-bit representation, then split as `_split_u32`. -/
def split_s32 (val : Int) : Int × Int :=
  let v := if val < 0 then (val + 4294967296) % 4294967296 else val
  split_u32 v

/-- One `client.write_registers(address, regs, ...)` call observed on the
wire. -/
structure RegWrite where
  address : Int
  regs : List Int
deriving DecidableEq, Repr

/-- Embeds `SMABatteryWriter._write_u32`: one multi-register write of the
`_split_u32` pair. -/
def write_u32 (address val : Int) : RegWrite :=
  ⟨address, [(split_u32 val).1, (split_u32 val).2]⟩

/-- Embeds `SMABatteryWriter._write_s32`: one multi-register write of the
`_split_s32` pair. -/
def write_s32 (address val : Int) : RegWrite :=
  ⟨address, [(split_s32 val).1, (split_s32 val).2]⟩

/-- Embeds `SMABatteryWriter.set_auto_mode`: the writes performed once the client is
connected — setpoint 40149 := 0 first, then mode 40151 := 803. -/
def set_auto_mode : List RegWrite :=
  [write_s32 REGISTER_POWER_SETPOINT 0,
   write_u32 REGISTER_CONTROL_MODE AUTO_MODE_VALUE]

/-- Embeds `SMABatteryWriter.set_charge_watts`: a negative argument is ignored
(no write); otherwise mode 40151 := 802 first, then setpoint
40149 := `-int(abs(watts))`. -/
def set_charge_watts (watts : Int) : List RegWrite :=
  if watts < 0 then []
  else
    [write_u32 REGISTER_CONTROL_MODE MANUAL_MODE_VALUE,
     write_s32 REGISTER_POWER_SETPOINT (-|watts|)]

/-- Embeds `SMABatteryWriter.set_discharge_watts`: a negative argument is ignored;
otherwise mode 40151 := 802 first, then setpoint 40149 := `int(abs(watts))`. -/
def set_discharge_watts (watts : Int) : List RegWrite :=
  if watts < 0 then []
  else
    [write_u32 REGISTER_CONTROL_MODE MANUAL_MODE_VALUE,
     write_s32 REGISTER_POWER_SETPOINT |watts|]

/-! The command applier, `SmaTelemetryCoordinator._apply_spock_command` in
`coordinator.py`.  A command dictionary carries `operation_mode` (a string,
possibly missing) and `action` (a value that may or may not parse as a
number; `int(float(raw_action))` failure yields 0). -/

/-- Python `str.lower()` (ASCII range, which covers the protocol's mode
strings): lowercase each character. -/
def pyLower (s : String) : String := String.mk (s.data.map Char.toLower)

/-- Embeds `(spock_cmd.get("operation_mode") or "auto").lower()`: a missing or
empty mode falls back to `"auto"`. -/
def normalizeOpMode (m : Option String) : String :=
  match m with
  | none => "auto"
  | some s => if s = "" then "auto" else pyLower s

/-- Embeds `_apply_spock_command`, as the list of register writes it performs
through `SMABatteryWriter`.  `action` is the parsed numeric value of the
command's `action` field (`none` when `int(float(raw_action))` raised, which
the code turns into magnitude 0).  The magnitude is made non-negative by
`if mag < 0: mag = -mag` before dispatching. -/
def apply_spock_command (operation_mode : Option String) (action : Option Int) :
    List RegWrite :=
  let op_mode := normalizeOpMode operation_mode
  let mag0 := action.getD 0
  let mag := if mag0 < 0 then -mag0 else mag0
  if op_mode = "auto" then set_auto_mode
  else if op_mode = "charge" then
    if mag ≤ 0 then set_auto_mode
    else set_charge_watts mag
  else if op_mode = "discharge" then
    if mag ≤ 0 then set_auto_mode
    else set_discharge_watts mag
  else set_auto_mode

/-! The address resolver, `_try_read_register_block` in `__init__.py`. -/

/-- A Modbus register kind: `read_holding_registers` vs
`read_input_registers`. -/
inductive RegKind where
  | holding
  | input
deriving DecidableEq, Repr

/-- What one read attempt against the device yields: a protocol-level error
(an exception, or a response whose `isError()` holds) or a register list. -/
inductive ReadResp where
  | err
  | okRegs (regs : List Int)
deriving DecidableEq, Repr

/-- The device under test, as the responses it gives to each
(kind, address) read. -/
abbrev Device := RegKind → Int → ReadResp

/-- The candidate list of `_try_read_register_block`, in source order:
holding base 40001, holding base 40000, input base 30001, input base
30000. -/
def attempts (reg : Int) : List (RegKind × Int) :=
  [(RegKind.holding, reg - 40001), (RegKind.holding, reg - 40000),
   (RegKind.input, reg - 30001), (RegKind.input, reg - 30000)]

/-- The loop body of `_try_read_register_block`: skip candidates whose
computed address is negative, skip protocol errors, return the first
remaining response. -/
def tryAttempts (dev : Device) :
    List (RegKind × Int) → Option (RegKind × Int × List Int)
  | [] => none
  | (kind, addr) :: rest =>
    if addr < 0 then tryAttempts dev rest
    else
      match dev kind addr with
      | ReadResp.err => tryAttempts dev rest
      | ReadResp.okRegs regs => some (kind, addr, regs)

/-- Embeds `_try_read_register_block`; `none` models the final
`ConnectionError`. -/
def try_read_register_block (dev : Device) (reg : Int) :
    Option (RegKind × Int × List Int) :=
  tryAttempts dev (attempts reg)

/-- The candidate order as the claim states it: input candidates before
holding candidates.  This follows the claim's words, for comparison with
the source-order `attempts`. -/
def claim_attempts (reg : Int) : List (RegKind × Int) :=
  [(RegKind.input, reg - 30001), (RegKind.input, reg - 30000),
   (RegKind.holding, reg - 40001), (RegKind.holding, reg - 40000)]

/-- The resolver as the claim states it: try `claim_attempts` in order and
accept the first response that completes without protocol error and is not
entirely composed of the 16-bit sentinel 0xFFFF.  This follows the claim's
words, for comparison with `try_read_register_block`, which embeds the
code. -/
def claim_resolve_go (dev : Device) :
    List (RegKind × Int) → Option (RegKind × Int × List Int)
  | [] => none
  | (kind, addr) :: rest =>
    match dev kind addr with
    | ReadResp.err => claim_resolve_go dev rest
    | ReadResp.okRegs regs =>
      if regs.all (fun r => r = 65535) then claim_resolve_go dev rest
      else some (kind, addr, regs)

/-- The claim's resolver applied to the claim's candidate order. -/
def claim_resolve (dev : Device) (reg : Int) :
    Option (RegKind × Int × List Int) :=
  claim_resolve_go dev (claim_attempts reg)

/-- A device that answers the first source-order candidate of logical
register 40149 (holding @ 148) with an all-sentinel block and the first
claim-order candidate (input @ 10148) with real data. -/
def dev6 : Device := fun kind addr =>
  if kind = RegKind.holding ∧ addr = 148 then ReadResp.okRegs [65535, 65535]
  else if kind = RegKind.input ∧ addr = 10148 then ReadResp.okRegs [3, 4]
  else ReadResp.err

/-- A device that only answers the second source-order candidate of logical
register 40149 (holding @ 149). -/
def dev7 : Device := fun kind addr =>
  if kind = RegKind.holding ∧ addr = 149 then ReadResp.okRegs [7]
  else ReadResp.err

/-! The push phase of `SmaTelemetryCoordinator._async_update_data`
(`coordinator.py`): steps 2–3, PUSH to Spock and command application. -/

/-- The parsed JSON body of a Spock response: a dictionary carrying the
fields the code reads, or some non-dictionary JSON value. -/
inductive JsonBody where
  | dict (status : Option String) (operation_mode : Option String)
      (action : Option Int)
  | nonDict
deriving DecidableEq, Repr

/-- The outcome of the HTTP POST inside `_async_push_to_spock`:
a network error (`ClientError`/timeout), or a response with an HTTP status
and a body (`none` when the body cannot be parsed as JSON). -/
inductive PushResult where
  | netError
  | response (status : Int) (body : Option JsonBody)
deriving DecidableEq, Repr

/-- Embeds `_async_push_to_spock`: raises (`Except.error`) on network error,
non-200 status, or unparseable JSON; returns silently on a non-dict body or
a body without `status == "ok"` and a non-empty `operation_mode`; otherwise
applies the command.  The result lists the command-applier invocations
performed (each one the write list of that invocation). -/
def push_to_spock (r : PushResult) : Except String (List (List RegWrite)) :=
  match r with
  | PushResult.netError => Except.error "ClientError"
  | PushResult.response status body =>
    if status ≠ 200 then Except.error "Error de API Spock"
    else
      match body with
      | none => Except.error "No se pudo parsear JSON"
      | some JsonBody.nonDict => Except.ok []
      | some (JsonBody.dict st om act) =>
        if st ≠ some "ok" ∨ pyLower (om.getD "") = "" then Except.ok []
        else Except.ok [apply_spock_command om act]

/-- Steps 2–3 of `SmaTelemetryCoordinator._async_update_data`: any
exception from the push is caught and answered with exactly one
`set_auto_mode` fallback (`_fallback_auto_mode`); the tick then returns its
sensor data normally in both cases. -/
def update_push_phase (r : PushResult) : List (List RegWrite) :=
  match push_to_spock r with
  | Except.error _ => [set_auto_mode]
  | Except.ok calls => calls

/-- The applier invocations of a sequence of ticks, one `PushResult` per
tick: since `update_push_phase` never raises past the tick, every tick in
the sequence runs. -/
def run_push_ticks (rs : List PushResult) : List (List (List RegWrite)) :=
  rs.map update_push_phase

/-- The push failed in the sense of the claim: network error, non-200 HTTP
status, or a body that cannot be parsed as JSON. -/
def pushFailed (r : PushResult) : Bool :=
  match r with
  | PushResult.netError => true
  | PushResult.response status body => status ≠ 200 || body.isNone

/-! The disabled gate of `SpockEnergyCoordinator._async_update_data`
(`__init__.py`). -/

/-- A JSON-like value stored in the coordinator's telemetry dictionary. -/
inductive JVal where
  | int (n : Int)
  | bool (b : Bool)
deriving DecidableEq, Repr

/-- A telemetry snapshot dictionary; `[]` is the empty dict `{}`. -/
abbrev Snapshot := List (String × JVal)

/-- The coordinator state the disabled gate reads: `self.data`, `None`
until a first tick has returned. -/
structure CoordinatorState where
  data : Option Snapshot
deriving DecidableEq, Repr

/-- A device-level effect of one tick. -/
inductive DeviceEffect where
  | read (kind : RegKind) (addr : Int) (count : Nat)
  | write (w : RegWrite)
deriving DecidableEq, Repr

/-- Embeds `SpockEnergyCoordinator._async_update_data`: when `is_enabled` is
false, return `{}` if no data is cached, else the cached data unchanged,
before any device I/O happens.  The enabled branch (Modbus read, push,
command processing) is the rest of the function, taken here as an arbitrary
`enabledCycle` — the disabled gate returns before any of it runs, whatever
it does. -/
def async_update_data (isEnabled : Bool) (st : CoordinatorState)
    (enabledCycle : CoordinatorState → Snapshot × List DeviceEffect) :
    Snapshot × List DeviceEffect :=
  if !isEnabled then
    match st.data with
    | none => ([], [])
    | some d => (d, [])
  else enabledCycle st

/-- Runs `n` consecutive ticks: the `DataUpdateCoordinator` framework stores each
tick's returned snapshot in `self.data` before the next tick.  Returns the
snapshots each tick returned, the final state, and all device effects. -/
def run_update_ticks (isEnabled : Bool)
    (enabledCycle : CoordinatorState → Snapshot × List DeviceEffect) :
    Nat → CoordinatorState → List Snapshot × CoordinatorState × List DeviceEffect
  | 0, st => ([], st, [])
  | n + 1, st =>
    let r := async_update_data isEnabled st enabledCycle
    let rest := run_update_ticks isEnabled enabledCycle n ⟨some r.1⟩
    (r.1 :: rest.1, rest.2.1, r.2 ++ rest.2.2)

/-! The telemetry mapper `_map_sma_to_spock` (`coordinator.py`). -/

/-- The pysma sensor values `_map_sma_to_spock` reads; `none` covers both a
missing key and a `None` value (both collapse to 0 through
`sensors_dict.get(k, 0) or 0`). -/
structure SensorsDict where
  battery_power_charge_total : Option Int
  battery_power_discharge_total : Option Int
  pv_power_a : Option Int
  pv_power_b : Option Int
  metering_power_absorbed : Option Int
  metering_power_supplied : Option Int
  battery_soc_total : Option Int
deriving DecidableEq, Repr

/-- Embeds `sensors_dict.get(k, 0) or 0` on a numeric-or-absent value: absent and
`None` give 0; the number 0 is falsy and `0 or 0` is 0; any other number is
itself. -/
def orZero (v : Option Int) : Int := v.getD 0

/-- Embeds `to_int_str_or_none` restricted to numeric-or-None inputs:
`str(int(float(val)))` of an integer is its decimal string, and `None` stays
`None`. -/
def to_int_str_or_none (val : Option Int) : Option String :=
  match val with
  | none => none
  | some n => some (toString n)

/-- The Spock telemetry payload built by `_map_sma_to_spock`. -/
structure SpockPayload where
  plant_id : String
  bat_soc : Option String
  bat_power : Option String
  pv_power : Option String
  ongrid_power : Option String
  bat_charge_allowed : String
  bat_discharge_allowed : String
  bat_capacity : String
  total_grid_output_energy : Option String
deriving DecidableEq, Repr

/-- Embeds `SmaTelemetryCoordinator._map_sma_to_spock`. -/
def map_sma_to_spock (plant_id : String) (s : SensorsDict) : SpockPayload :=
  let charge := orZero s.battery_power_charge_total
  let discharge := orZero s.battery_power_discharge_total
  let battery_power := charge - discharge
  let pv_a := orZero s.pv_power_a
  let pv_b := orZero s.pv_power_b
  let pv_power := pv_a + pv_b
  let grid_absorb := orZero s.metering_power_absorbed
  let grid_supply := orZero s.metering_power_supplied
  let net_grid_power := grid_absorb - grid_supply
  let supply_power := grid_supply
  { plant_id := plant_id
    bat_soc := to_int_str_or_none s.battery_soc_total
    bat_power := to_int_str_or_none (some battery_power)
    pv_power := to_int_str_or_none (some pv_power)
    ongrid_power := to_int_str_or_none (some net_grid_power)
    bat_charge_allowed := "true"
    bat_discharge_allowed := "true"
    bat_capacity := "0"
    total_grid_output_energy := to_int_str_or_none (some supply_power) }


/-! Helper lemmas shared by the command-applier claims. -/

lemma normalizeOpMode_charge : normalizeOpMode (some "charge") = "charge" := by decide

lemma normalizeOpMode_discharge : normalizeOpMode (some "discharge") = "discharge" := by
  decide

lemma apply_charge_pos (m : Int) (h : 0 < m) :
    apply_spock_command (some "charge") (some m) = set_charge_watts m := by
  simp only [apply_spock_command, normalizeOpMode_charge, Option.getD_some]
  rw [if_neg (by omega : ¬ m < 0)]
  rw [if_neg (by omega : ¬ m ≤ 0)]
  simp

lemma apply_discharge_pos (m : Int) (h : 0 < m) :
    apply_spock_command (some "discharge") (some m) = set_discharge_watts m := by
  simp only [apply_spock_command, normalizeOpMode_discharge, Option.getD_some]
  rw [if_neg (by omega : ¬ m < 0)]
  simp
  intro hc
  exact absurd hc (by omega)

lemma split_s32_neg (m : Int) (h : 0 < m) (h2 : m < 4294967296) :
    split_s32 (-m) = ((4294967296 - m) / 65536, (4294967296 - m) % 65536) := by
  simp only [split_s32, split_u32]
  rw [if_pos (by omega : -m < 0)]
  have e : (-m + 4294967296) % 4294967296 = 4294967296 - m := by omega
  rw [e]
  have e2 : (4294967296 - m) % 4294967296 = 4294967296 - m := by omega
  rw [e2]
  have e3 : (4294967296 - m) / 65536 % 65536 = (4294967296 - m) / 65536 := by
    omega
  rw [e3]

lemma split_s32_nonneg (m : Int) (h : 0 ≤ m) (h2 : m < 4294967296) :
    split_s32 m = (m / 65536, m % 65536) := by
  simp only [split_s32, split_u32]
  rw [if_neg (by omega : ¬ m < 0)]
  have e2 : m % 4294967296 = m := by omega
  rw [e2]
  have e3 : m / 65536 % 65536 = m / 65536 := by omega
  rw [e3]

lemma set_charge_watts_pos (m : Int) (h : 0 < m) (h2 : m < 4294967296) :
    set_charge_watts m =
      [⟨REGISTER_CONTROL_MODE, [0, MANUAL_MODE_VALUE]⟩,
       ⟨REGISTER_POWER_SETPOINT,
        [(4294967296 - m) / 65536, (4294967296 - m) % 65536]⟩] := by
  rw [set_charge_watts, if_neg (by omega : ¬ m < 0), abs_of_pos h]
  rw [write_s32, split_s32_neg m h h2]
  rfl

lemma set_discharge_watts_pos (m : Int) (h : 0 < m) (h2 : m < 4294967296) :
    set_discharge_watts m =
      [⟨REGISTER_CONTROL_MODE, [0, MANUAL_MODE_VALUE]⟩,
       ⟨REGISTER_POWER_SETPOINT, [m / 65536, m % 65536]⟩] := by
  rw [set_discharge_watts, if_neg (by omega : ¬ m < 0), abs_of_pos h]
  rw [write_s32, split_s32_nonneg m h.le h2]
  rfl

/-! Claim theorems. -/

/-- C1: for every received command with mode "charge" and a magnitude that
is not strictly positive, the applier performs exactly the AUTO sequence —
setpoint register 40149 := 0, then mode register 40151 := 803 — and never
writes the MANUAL constant or a non-zero setpoint. -/
theorem charge_nonpositive_magnitude_runs_auto_sequence (action : Option Int)
    (h : ¬ 0 < |action.getD 0|) :
    apply_spock_command (some "charge") action = set_auto_mode ∧
    set_auto_mode =
      [⟨REGISTER_POWER_SETPOINT, [0, 0]⟩,
       ⟨REGISTER_CONTROL_MODE, [0, AUTO_MODE_VALUE]⟩] := by
  have h0 : action.getD 0 = 0 :=
    abs_eq_zero.mp (le_antisymm (not_lt.mp h) (abs_nonneg _))
  refine ⟨?_, rfl⟩
  cases action with
  | none => rfl
  | some n =>
    simp only [Option.getD_some] at h0
    subst h0
    rfl

/-- C1 witness: the command `{mode: "charge", magnitude: 0}`. -/
theorem charge_nonpositive_magnitude_runs_auto_sequence_witness :
    ¬ 0 < |(some (0 : Int)).getD 0| ∧
    apply_spock_command (some "charge") (some 0) = set_auto_mode :=
  ⟨by decide,
   (charge_nonpositive_magnitude_runs_auto_sequence (some 0) (by decide)).1⟩

/-- C2: for mode "discharge" with positive magnitude `m` the applier writes
MANUAL (802) to the mode register and then `+m` to setpoint register 40149;
for "charge" it writes MANUAL and then `−m` two's-complement encoded; in
each case the mode-register write precedes the setpoint write. -/
theorem manual_mode_write_precedes_signed_setpoint (m : Int) (h1 : 0 < m)
    (h2 : m < 2147483648) :
    (∃ hi lo, apply_spock_command (some "discharge") (some m) =
        [⟨REGISTER_CONTROL_MODE, [0, MANUAL_MODE_VALUE]⟩,
         ⟨REGISTER_POWER_SETPOINT, [hi, lo]⟩] ∧
      hi * 65536 + lo = m ∧ 0 ≤ hi ∧ hi < 65536 ∧ 0 ≤ lo ∧ lo < 65536) ∧
    (∃ hi lo, apply_spock_command (some "charge") (some m) =
        [⟨REGISTER_CONTROL_MODE, [0, MANUAL_MODE_VALUE]⟩,
         ⟨REGISTER_POWER_SETPOINT, [hi, lo]⟩] ∧
      hi * 65536 + lo = 4294967296 - m ∧ 0 ≤ hi ∧ hi < 65536 ∧
      0 ≤ lo ∧ lo < 65536) := by
  constructor
  · refine ⟨m / 65536, m % 65536, ?_, by omega, by omega, by omega, by omega,
      by omega⟩
    rw [apply_discharge_pos m h1, set_discharge_watts_pos m h1 (by omega)]
  · refine ⟨(4294967296 - m) / 65536, (4294967296 - m) % 65536, ?_, by omega,
      by omega, by omega, by omega, by omega⟩
    rw [apply_charge_pos m h1, set_charge_watts_pos m h1 (by omega)]

/-- C2 witness: magnitude 500 — discharge writes `+500`, charge writes the
two's complement of `−500`. -/
theorem manual_mode_write_precedes_signed_setpoint_witness :
    (0 : Int) < 500 ∧ (500 : Int) < 2147483648 ∧
    (∃ hi lo, apply_spock_command (some "discharge") (some 500) =
        [⟨REGISTER_CONTROL_MODE, [0, MANUAL_MODE_VALUE]⟩,
         ⟨REGISTER_POWER_SETPOINT, [hi, lo]⟩] ∧
      hi * 65536 + lo = 500 ∧ 0 ≤ hi ∧ hi < 65536 ∧ 0 ≤ lo ∧ lo < 65536) :=
  ⟨by norm_num, by norm_num,
   (manual_mode_write_precedes_signed_setpoint 500 (by norm_num)
     (by norm_num)).1⟩

/-- C10: a command whose action parses to a negative number `n` is applied
as a manual charge of `|n|` W — MANUAL mode then setpoint `n` itself
(the two's complement encoding of `−|n|`) — while an action of 0 or an
unparseable action falls back to AUTO. -/
theorem negative_action_charges_with_absolute_value (n : Int) (h : n < 0) :
    apply_spock_command (some "charge") (some n) = set_charge_watts (-n) ∧
    set_charge_watts (-n) =
      [write_u32 REGISTER_CONTROL_MODE MANUAL_MODE_VALUE,
       write_s32 REGISTER_POWER_SETPOINT n] ∧
    apply_spock_command (some "charge") (some 0) = set_auto_mode ∧
    apply_spock_command (some "charge") none = set_auto_mode := by
  refine ⟨?_, ?_, rfl, rfl⟩
  · simp [apply_spock_command, normalizeOpMode_charge, h,
      (by omega : ¬ -n ≤ 0)]
  · rw [set_charge_watts, if_neg (by omega : ¬ -n < 0),
      abs_of_pos (by omega : (0 : Int) < -n), neg_neg]

/-- C10 witness: `{operation_mode: "charge", action: -500}` is applied as a
manual charge of 500 W. -/
theorem negative_action_charges_with_absolute_value_witness :
    (-500 : Int) < 0 ∧
    apply_spock_command (some "charge") (some (-500)) =
      set_charge_watts 500 :=
  ⟨by norm_num,
   (negative_action_charges_with_absolute_value (-500) (by norm_num)).1⟩

/-- C4: normalization maps exactly the documented sentinel bit patterns to
the absent marker (0xFFFF for u16; 0xFFFFFFFF and 0x80000000 for u32; −1
and −2147483648 for s32) and every other value to itself unchanged. -/
theorem sentinel_normalization_exact (v : Int) :
    (norm_u16 v = none ↔ v = 65535) ∧
    (norm_u16 v = some v ↔ ¬ v = 65535) ∧
    (norm_u32 v = none ↔ v = 4294967295 ∨ v = 2147483648) ∧
    (norm_u32 v = some v ↔ ¬ (v = 4294967295 ∨ v = 2147483648)) ∧
    (norm_s32 v = none ↔ v = -1 ∨ v = -2147483648) ∧
    (norm_s32 v = some v ↔ ¬ (v = -1 ∨ v = -2147483648)) := by
  simp only [norm_u16, norm_u32, norm_s32, INVALID_16, INVALID_32U,
    INVALID_32S, List.mem_cons, List.mem_singleton, List.not_mem_nil,
    or_false]
  refine ⟨?_, ?_, ?_, ?_, ?_, ?_⟩ <;> split_ifs <;> simp_all

/-- C9: the telemetry mapper computes battery power as
`charge_total − discharge_total`, PV power as string A + string B, net grid
power (`ongrid_power`) as `absorbed − supplied`, and the cumulative-export
field (`total_grid_output_energy`) as the supplied value alone; in
particular charge 300 / discharge 120 give 180, pv 100 / 50 give 150, and
absorbed 40 / supplied 10 give net 30 and export 10. -/
theorem telemetry_mapper_derived_fields (pid : String)
    (charge discharge pva pvb absorb supply : Int) (soc : Option Int) :
    (map_sma_to_spock pid ⟨some charge, some discharge, some pva, some pvb,
        some absorb, some supply, soc⟩).bat_power =
      some (toString (charge - discharge)) ∧
    (map_sma_to_spock pid ⟨some charge, some discharge, some pva, some pvb,
        some absorb, some supply, soc⟩).pv_power =
      some (toString (pva + pvb)) ∧
    (map_sma_to_spock pid ⟨some charge, some discharge, some pva, some pvb,
        some absorb, some supply, soc⟩).ongrid_power =
      some (toString (absorb - supply)) ∧
    (map_sma_to_spock pid ⟨some charge, some discharge, some pva, some pvb,
        some absorb, some supply, soc⟩).total_grid_output_energy =
      some (toString supply) ∧
    map_sma_to_spock "1" ⟨some 300, some 120, some 100, some 50, some 40,
        some 10, some 55⟩ =
      ⟨"1", some "55", some "180", some "150", some "30", "true", "true",
       "0", some "10"⟩ :=
  ⟨rfl, rfl, rfl, rfl, by rfl⟩


/-- C3: in every tick whose push to Spock fails — network error, non-200
HTTP status, or a body that cannot be parsed as JSON — the cycle invokes
the command applier with the AUTO sequence exactly once, performs no charge
or discharge write, and still completes so subsequent ticks run. -/
theorem push_failure_falls_back_to_auto_once (r : PushResult)
    (h : pushFailed r = true) :
    update_push_phase r = [set_auto_mode] ∧
    set_auto_mode =
      [⟨REGISTER_POWER_SETPOINT, [0, 0]⟩,
       ⟨REGISTER_CONTROL_MODE, [0, AUTO_MODE_VALUE]⟩] ∧
    (∀ rs, run_push_ticks (r :: rs) = [set_auto_mode] :: run_push_ticks rs) := by
  have hfail : ∃ e, push_to_spock r = Except.error e := by
    cases r with
    | netError => exact ⟨"ClientError", rfl⟩
    | response status body =>
      by_cases hs : status = 200
      · subst hs
        cases body with
        | none => exact ⟨"No se pudo parsear JSON", by simp [push_to_spock]⟩
        | some b =>
          exfalso
          simp [pushFailed] at h
      · exact ⟨"Error de API Spock", by simp [push_to_spock, hs]⟩
  rcases hfail with ⟨e, he⟩
  have hph : update_push_phase r = [set_auto_mode] := by
    simp [update_push_phase, he]
  refine ⟨hph, rfl, fun rs => ?_⟩
  simp [run_push_ticks, hph]

/-- C3 witness: a push answered with HTTP 500 — even though the body holds
a well-formed charge command — triggers exactly the AUTO fallback. -/
theorem push_failure_falls_back_to_auto_once_witness :
    pushFailed (PushResult.response 500
        (some (JsonBody.dict (some "ok") (some "charge") (some 500)))) = true ∧
    update_push_phase (PushResult.response 500
        (some (JsonBody.dict (some "ok") (some "charge") (some 500)))) =
      [set_auto_mode] :=
  ⟨by decide,
   (push_failure_falls_back_to_auto_once (PushResult.response 500
       (some (JsonBody.dict (some "ok") (some "charge") (some 500))))
     (by decide)).1⟩

/-- C7: with polling disabled, any number of consecutive ticks performs zero
device reads and zero device writes, and every tick returns the previously
cached snapshot unchanged (the empty snapshot when none is cached yet),
whatever the enabled branch of the cycle would have done. -/
theorem disabled_ticks_no_io_same_snapshot (n : Nat) (st : CoordinatorState)
    (enabledCycle : CoordinatorState → Snapshot × List DeviceEffect) :
    (run_update_ticks false enabledCycle n st).1 =
      List.replicate n (st.data.getD []) ∧
    (run_update_ticks false enabledCycle n st).2.2 = [] := by
  induction n generalizing st with
  | zero => exact ⟨rfl, rfl⟩
  | succ k ih =>
    have hstep : async_update_data false st enabledCycle =
        (st.data.getD [], []) := by
      cases hd : st.data with
      | none => simp [async_update_data, hd]
      | some d => simp [async_update_data, hd]
    have ihx := ih ⟨some (st.data.getD [])⟩
    simp only [run_update_ticks, hstep] at *
    refine ⟨?_, ?_⟩
    · simp only [List.replicate_succ, List.cons.injEq, eq_self_iff_true,
        true_and]
      rw [ihx.1]
      simp
    · rw [ihx.2]
      simp


/-! Claim C8: `_take` and the decoders on short buffers. -/

lemma take_spec (d : BinaryPayloadDecoder) (n : Nat) (hn : 0 < n) :
    d.take n =
      if d.pos + n ≤ d.buf.length then
        Except.ok ((d.buf.drop d.pos).take n, { d with pos := d.pos + n })
      else Except.error "Decoder buffer underflow" := by
  simp only [BinaryPayloadDecoder.take]
  by_cases hc : d.pos + n ≤ d.buf.length
  · have hcc : ((d.buf.drop d.pos).take n).length = n := by
      simp only [List.length_take, List.length_drop]
      omega
    rw [if_pos hcc, if_pos hc]
  · have hcc : ¬ ((d.buf.drop d.pos).take n).length = n := by
      simp only [List.length_take, List.length_drop]
      omega
    rw [if_neg hcc, if_neg hc]

/-- C8: every decode request (16-bit, 32-bit, or float) whose byte count
exceeds the bytes remaining past the cursor fails with the buffer-underflow
error — never silently returning a value — and every decode with enough
bytes remaining succeeds. -/
theorem decode_underflow_errors_and_in_range_succeeds
    (d : BinaryPayloadDecoder) :
    (d.decode_16bit_uint = Except.error "Decoder buffer underflow" ↔
      d.buf.length < d.pos + 2) ∧
    ((∃ v, d.decode_16bit_uint = Except.ok v) ↔ d.pos + 2 ≤ d.buf.length) ∧
    (d.decode_16bit_int = Except.error "Decoder buffer underflow" ↔
      d.buf.length < d.pos + 2) ∧
    ((∃ v, d.decode_16bit_int = Except.ok v) ↔ d.pos + 2 ≤ d.buf.length) ∧
    (d.decode_32bit_uint = Except.error "Decoder buffer underflow" ↔
      d.buf.length < d.pos + 4) ∧
    ((∃ v, d.decode_32bit_uint = Except.ok v) ↔ d.pos + 4 ≤ d.buf.length) ∧
    (d.decode_32bit_int = Except.error "Decoder buffer underflow" ↔
      d.buf.length < d.pos + 4) ∧
    ((∃ v, d.decode_32bit_int = Except.ok v) ↔ d.pos + 4 ≤ d.buf.length) ∧
    (d.decode_32bit_float = Except.error "Decoder buffer underflow" ↔
      d.buf.length < d.pos + 4) ∧
    ((∃ bs, d.decode_32bit_float = Except.ok bs) ↔
      d.pos + 4 ≤ d.buf.length) := by
  have t2 := take_spec d 2 (by norm_num)
  have t4 := take_spec d 4 (by norm_num)
  refine ⟨?_, ?_, ?_, ?_, ?_, ?_, ?_, ?_, ?_, ?_⟩ <;>
    simp only [BinaryPayloadDecoder.decode_16bit_uint,
      BinaryPayloadDecoder.decode_16bit_int,
      BinaryPayloadDecoder.decode_32bit_uint,
      BinaryPayloadDecoder.decode_32bit_int,
      BinaryPayloadDecoder.decode_32bit_float, t2, t4] <;>
    split_ifs with hc <;>
    simp_all

/-! Claim C5: signed-32 round trip through the encoder and the Big/Big
decoder. -/

lemma decodeS32BB (r1 r2 : Int) :
    (BinaryPayloadDecoder.decode_32bit_int
        (BinaryPayloadDecoder.fromRegisters [r1, r2] Endian.Big
          Endian.Big)).map Prod.fst =
      Except.ok (toSigned 32 (bytesBE
        [r1 % 65536 / 256 % 256, r1 % 65536 % 256,
         r2 % 65536 / 256 % 256, r2 % 65536 % 256])) := rfl

/-- C5: for every 32-bit signed integer `v`, decoding the register pair
produced by the signed-32-bit encoder with big byte order and big word
order yields `v` back. -/
theorem s32_encode_decode_roundtrip (v : Int) (h1 : -2147483648 ≤ v)
    (h2 : v < 2147483648) :
    (BinaryPayloadDecoder.decode_32bit_int
        (BinaryPayloadDecoder.fromRegisters
          [(split_s32 v).1, (split_s32 v).2] Endian.Big Endian.Big)).map
        Prod.fst = Except.ok v := by
  rw [decodeS32BB]
  congr 1
  simp only [split_s32, split_u32, bytesBE, List.foldl, toSigned]
  norm_num
  split_ifs <;> omega

/-- C5 witness: the representative values 0, 1, −1, and the extremes of the
width round-trip. -/
theorem s32_encode_decode_roundtrip_witness :
    (BinaryPayloadDecoder.decode_32bit_int
        (BinaryPayloadDecoder.fromRegisters
          [(split_s32 (-1)).1, (split_s32 (-1)).2] Endian.Big
          Endian.Big)).map Prod.fst = Except.ok (-1) :=
  s32_encode_decode_roundtrip (-1) (by norm_num) (by norm_num)


/-! Claim C6: candidate order of the address resolver. -/

/-- C6 counterexample: on `dev6` and logical register 40149 the code's
resolver accepts the first source-order candidate — holding @ 148, an
all-0xFFFF block — whereas the claimed resolver (input candidates first,
all-sentinel responses rejected) accepts input @ 10148. -/
theorem resolver_order_counterexample :
    try_read_register_block dev6 40149 =
      some (RegKind.holding, 148, [65535, 65535]) ∧
    claim_resolve dev6 40149 = some (RegKind.input, 10148, [3, 4]) ∧
    try_read_register_block dev6 40149 ≠ claim_resolve dev6 40149 := by
  refine ⟨rfl, rfl, ?_⟩
  decide

/-- C6 amended: the resolver tries, in this order, holding@(reg−40001),
holding@(reg−40000), input@(reg−30001), input@(reg−30000), skipping no
candidate (negative computed addresses aside), and accepts the first
response that completes without a protocol-level error, with no check on
the response's content. -/
theorem resolver_source_order_characterization (dev : Device) (reg : Int)
    (h : 40001 ≤ reg) :
    (∀ regs, dev RegKind.holding (reg - 40001) = ReadResp.okRegs regs →
        try_read_register_block dev reg =
          some (RegKind.holding, reg - 40001, regs)) ∧
    (dev RegKind.holding (reg - 40001) = ReadResp.err →
      (∀ regs, dev RegKind.holding (reg - 40000) = ReadResp.okRegs regs →
          try_read_register_block dev reg =
            some (RegKind.holding, reg - 40000, regs)) ∧
      (dev RegKind.holding (reg - 40000) = ReadResp.err →
        (∀ regs, dev RegKind.input (reg - 30001) = ReadResp.okRegs regs →
            try_read_register_block dev reg =
              some (RegKind.input, reg - 30001, regs)) ∧
        (dev RegKind.input (reg - 30001) = ReadResp.err →
          (∀ regs, dev RegKind.input (reg - 30000) = ReadResp.okRegs regs →
              try_read_register_block dev reg =
                some (RegKind.input, reg - 30000, regs)) ∧
          (dev RegKind.input (reg - 30000) = ReadResp.err →
            try_read_register_block dev reg = none)))) := by
  have h1 : ¬ reg - 40001 < 0 := by omega
  have h2 : ¬ reg - 40000 < 0 := by omega
  have h3 : ¬ reg - 30001 < 0 := by omega
  have h4 : ¬ reg - 30000 < 0 := by omega
  refine ⟨?_, ?_⟩
  · intro regs hr
    simp [try_read_register_block, attempts, tryAttempts, h1, hr]
  · intro e1
    refine ⟨?_, ?_⟩
    · intro regs hr
      simp [try_read_register_block, attempts, tryAttempts, h1, h2, e1, hr]
    · intro e2
      refine ⟨?_, ?_⟩
      · intro regs hr
        simp [try_read_register_block, attempts, tryAttempts, h1, h2, h3,
          e1, e2, hr]
      · intro e3
        refine ⟨?_, ?_⟩
        · intro regs hr
          simp [try_read_register_block, attempts, tryAttempts, h1, h2, h3,
            h4, e1, e2, e3, hr]
        · intro e4
          simp [try_read_register_block, attempts, tryAttempts, h1, h2, h3,
            h4, e1, e2, e3, e4]

/-- C6 witness: a device that only answers the second source-order
candidate — the resolver tries holding@(reg−40001), observes the error, and
succeeds on holding@(reg−40000). -/
theorem resolver_source_order_characterization_witness :
    (40001 : Int) ≤ 40149 ∧
    try_read_register_block dev7 40149 = some (RegKind.holding, 149, [7]) :=
  ⟨by norm_num,
   ((resolver_source_order_characterization dev7 40149 (by norm_num)).2
       (by decide)).1 [7] (by decide)⟩

end SpockEmsSma
